import Mathlib

/-!
Verification of the AUDIN/UFAM client-side behavior layer.

Shallow embedding of the repository's JavaScript:
* the data loader (`loadStats`, `formatPercent`, `calculateGaugeArc`,
  `updateElement`, the five page binders, `initDataLoader`);
* the UI widget library in `dev/assets/js/audin-core.js`
  (`toggleAccordionPanel`, `AUDIN.initTabs`, the `filtrar` closure of
  `AUDIN.initFiltros`).

JavaScript numbers are modelled as exact rationals (every JSON literal in
scope is an exact dyadic/decimal value), strings as Lean strings, and the
DOM as association lists from element id to element state.  Stateful code
is modelled by explicit state passing; code that can throw runs in an
explicit state-plus-option monad so that mutations performed before an
exception are retained, as in a real DOM.
-/

/-- A JavaScript value as it occurs in this codebase: `undefined`, `null`,
booleans, (exact) numbers, strings, objects and arrays. -/
inductive JsVal : Type where
  | undefined : JsVal
  | null : JsVal
  | bool : Bool → JsVal
  | num : ℚ → JsVal
  | str : String → JsVal
  | obj : List (String × JsVal) → JsVal
  | arr : List JsVal → JsVal

/-- JavaScript truthiness (`if (v)`).  `NaN` is not modelled: no number in
scope is `NaN`. -/
def truthy : JsVal → Bool
  | .undefined => false
  | .null => false
  | .bool b => b
  | .num q => !(q == 0)
  | .str s => !(s == "")
  | .obj _ => true
  | .arr _ => true

/-- First binding of a key in an object's field list (JS object keys are
unique, and property lookup returns the single binding). -/
def lookupField : List (String × JsVal) → String → JsVal
  | [], _ => .undefined
  | (k, v) :: rest, key => if k == key then v else lookupField rest key

/-- Property access `v.key` on a value already known to be truthy (access on
`null`/`undefined` throws and is modelled separately by `getFieldM` below).
A missing property reads as `undefined`; properties of truthy non-objects
read as `undefined` (none of the codebase's field names collides with a
built-in prototype property). -/
def getField (v : JsVal) (key : String) : JsVal :=
  match v with
  | .obj fields => lookupField fields key
  | _ => .undefined

/-- Left-pad a digit string with zeros up to length `k`. -/
def padZeros (s : String) (k : ℕ) : String :=
  ⟨List.replicate (k - s.data.length) '0' ++ s.data⟩

/-- Models ECMAScript `ToString` applied to a number of the exact-rational
model.  Integral values render in decimal exactly as in JS; values with a
terminating decimal expansion render as that expansion (which agrees with
JS on every decimal JSON literal in scope).  The shortest-round-trip
rendering of an arbitrary double is not modelled; no theorem below
evaluates this function. -/
def jsNumToString (q : ℚ) : String :=
  let sign := if q.num < 0 then "-" else ""
  let n := q.num.natAbs
  let d := q.den
  if d = 1 then sign ++ Nat.repr n
  else
    match (List.range 1200).find? (fun k => 10 ^ k % d == 0) with
    | some k =>
        let scaled := n * 10 ^ k / d
        let ip := scaled / 10 ^ k
        let fr := scaled % 10 ^ k
        sign ++ Nat.repr ip ++ "." ++ padZeros (Nat.repr fr) k
    | none => sign ++ Nat.repr n ++ "/" ++ Nat.repr d

mutual

/-- ECMAScript `ToString` (as used by template literals and by `+` with a
string operand).  Objects in scope have no custom `toString`/`valueOf`. -/
def jsToString : JsVal → String
  | .undefined => "undefined"
  | .null => "null"
  | .bool b => cond b "true" "false"
  | .num q => jsNumToString q
  | .str s => s
  | .obj _ => "[object Object]"
  | .arr xs => String.intercalate "," (jsToStringElems xs)

/-- `Array.prototype.join(",")` element rendering: `null` and `undefined`
elements render as the empty string. -/
def jsToStringElems : List JsVal → List String
  | [] => []
  | x :: xs =>
      (match x with
        | .null => ""
        | .undefined => ""
        | v => jsToString v) :: jsToStringElems xs

end

/-- WebIDL conversion performed by assigning a JS value to
`Node.textContent` (a nullable `DOMString` whose setter treats `null` as
the empty string): `undefined` and `null` become `""`; other values go
through `ToString`. -/
def jsToTextContent (v : JsVal) : String :=
  match v with
  | .undefined => ""
  | .null => ""
  | _ => jsToString v

/-- Group a reversed digit list in threes, inserting the pt-BR thousands
separator. -/
def groupRevDigits : List Char → List Char
  | [] => []
  | [a] => [a]
  | [a, b] => [a, b]
  | [a, b, c] => [a, b, c]
  | a :: b :: c :: rest => a :: b :: c :: '.' :: groupRevDigits rest

/-- pt-BR digit grouping of a decimal digit string ("1234" becomes
"1.234"). -/
def ptBRGroup (s : String) : String :=
  ⟨(groupRevDigits s.data.reverse).reverse⟩

/-- Embeds `formatPercent` (data loader, lines 35-37):
`num.toLocaleString('pt-BR', { minimumFractionDigits: 1,
maximumFractionDigits: 1 })`.  pt-BR renders with comma decimal separator,
dot thousands grouping, and the ECMA-402 default `halfExpand` rounding
(half away from zero on the magnitude). -/
def formatPercent (num : ℚ) : String :=
  let n : ℕ := num.num.natAbs
  let d : ℕ := num.den
  let tenths : ℕ := (20 * n + d) / (2 * d)
  let ip : ℕ := tenths / 10
  let fp : ℕ := tenths % 10
  (if num < 0 then "-" else "") ++ ptBRGroup (Nat.repr ip) ++ "," ++ Nat.repr fp

/-- The components of the SVG path string
`M startX startY A r r 0 largeArcFlag 1 endX endY` returned by
`calculateGaugeArc`.  The path is represented structurally because the
double-to-string rendering of the coordinates is not modelled. -/
structure GaugeArc where
  startX : ℝ
  startY : ℝ
  endX : ℝ
  endY : ℝ
  r : ℝ
  largeArcFlag : ℕ

/-- Embeds `calculateGaugeArc` (data loader, lines 44-64) over idealized
real arithmetic: `startAngle = pi`, `endAngle = startAngle - p/100 * pi`,
center `(100, 100)`, radius `80`, `startX = 100 + 80 cos startAngle`,
`startY = 100 - 80 sin startAngle`, endpoint likewise at `endAngle`, and
large-arc flag `1` exactly when the percentage exceeds `50`. -/
noncomputable def calculateGaugeArc (percentage : ℝ) : GaugeArc :=
  { startX := 100 + 80 * Real.cos Real.pi
    startY := 100 - 80 * Real.sin Real.pi
    endX := 100 + 80 * Real.cos (Real.pi - percentage / 100 * Real.pi)
    endY := 100 - 80 * Real.sin (Real.pi - percentage / 100 * Real.pi)
    r := 80
    largeArcFlag := if percentage > 50 then 1 else 0 }

/-- State of the data-loader module: the module-level cache `statsData`
(initially JS `null`, line 7), plus instrumentation recording how many
`fetch` requests have been issued and what `console.error` has logged. -/
structure LoaderState where
  statsData : JsVal
  requests : ℕ
  log : List String

/-- Module state at script load: `let statsData = null`. -/
def initialLoaderState : LoaderState :=
  { statsData := .null, requests := 0, log := [] }

/-- Embeds `loadStats` (data loader, lines 12-23).  `net` is the outcome
the network and JSON parse would produce for a request issued now: `ok j`
means `fetch` resolved and `response.json()` parsed to `j`; `error e`
means the fetch or the parse threw `e`.  If the cache is truthy it is
returned without touching the network; otherwise a request is issued, a
success is cached and returned, and a failure is logged via
`console.error` and `null` is returned (the assignment to `statsData`
never happens on the failing path). -/
def loadStats (st : LoaderState) (net : Except String JsVal) : JsVal × LoaderState :=
  if truthy st.statsData then (st.statsData, st)
  else
    match net with
    | .ok j => (j, { st with statsData := j, requests := st.requests + 1 })
    | .error e =>
        (.null, { st with requests := st.requests + 1,
                          log := st.log ++ ["Erro ao carregar stats.json: " ++ e] })

/-- First entry of an association list under a key (`document.getElementById`
returns the first element carrying the id). -/
def assocFind {α : Type} : List (String × α) → String → Option α
  | [], _ => none
  | (k, v) :: rest, key => if k = key then some v else assocFind rest key

/-- Update the first entry of an association list under a key, leaving the
list unchanged when the key is absent. -/
def assocModify {α : Type} (f : α → α) : List (String × α) → String → List (String × α)
  | [], _ => []
  | (k, v) :: rest, key =>
      if k = key then (k, f v) :: rest else (k, v) :: assocModify f rest key

/-- The state of one DOM element as far as the data loader touches it:
its text content, its inline `style.width` (stored as the raw assigned
string; CSS validation is not modelled), and its `d` attribute, recorded
as the value `v` such that `setAttribute('d', calculateGaugeArc(v))` was
last executed (the rendered path string itself is `calculateGaugeArc`
applied to that value). -/
structure DomElem where
  textContent : String
  styleWidth : String
  attrD : Option JsVal

/-- A document: element ids bound to element states. -/
def Dom : Type := List (String × DomElem)

/-- State-plus-exception monad for DOM-mutating JS code: a computation
transforms the document and either produces a value or has thrown
(`none`), keeping the mutations made before the throw, as a real DOM
does. -/
def DomM (α : Type) : Type := Dom → Dom × Option α

instance : Monad DomM where
  pure a := fun d => (d, some a)
  bind x f := fun d =>
    match x d with
    | (d1, some a) => f a d1
    | (d1, none) => (d1, none)

/-- An uncaught JS exception (for instance a `TypeError`). -/
def jsThrow {α : Type} : DomM α := fun d => (d, none)

/-- `document.getElementById(id) !== null`. -/
def elemExistsM (id : String) : DomM Bool :=
  fun d => (d, some (assocFind d id).isSome)

/-- Property access `v.key`: throws a `TypeError` when `v` is `null` or
`undefined`, otherwise reads the property (missing properties read as
`undefined`). -/
def getFieldM (v : JsVal) (key : String) : DomM JsVal :=
  match v with
  | .undefined => jsThrow
  | .null => jsThrow
  | _ => pure (getField v key)

/-- The result of `v.toLocaleString('pt-BR', { minimumFractionDigits: 1,
maximumFractionDigits: 1 })`: `none` models the `TypeError` thrown on
`null`/`undefined`; numbers format via `formatPercent`; strings return
themselves; other values fall back to `Object.prototype.toLocaleString`
(i.e. `ToString`). -/
def toLocaleStringFrac1 : JsVal → Option String
  | .undefined => none
  | .null => none
  | .num q => some (formatPercent q)
  | .str s => some s
  | .bool b => some (cond b "true" "false")
  | .obj _ => some "[object Object]"
  | .arr xs => some (String.intercalate "," (jsToStringElems xs))

/-- A call `formatPercent(v)` inside a binder: throws exactly when `v` is
`null` or `undefined`. -/
def formatPercentM (v : JsVal) : DomM String :=
  fun d => (d, toLocaleStringFrac1 v)

/-- Embeds `updateElement` (data loader, lines 194-199): looks the id up
and, if the element exists, assigns the value to its `textContent`;
a missing element is silently tolerated. -/
def updateElement (id : String) (value : JsVal) : DomM Unit :=
  fun d => (assocModify (fun e => { e with textContent := jsToTextContent value }) d id, some ())

/-- Assignment `el.style.width := w` on an existing element. -/
def setStyleWidthM (id : String) (w : String) : DomM Unit :=
  fun d => (assocModify (fun e => { e with styleWidth := w }) d id, some ())

/-- `gaugeArc.setAttribute('d', calculateGaugeArc(v))`, recorded as the
argument value (see `DomElem.attrD`). -/
def setGaugeDM (id : String) (v : JsVal) : DomM Unit :=
  fun d => (assocModify (fun e => { e with attrD := some v }) d id, some ())

/-- One guarded block of `updateStatusBar` (data loader, lines 210-225):
if the bar element exists, set its width from the percentage field and its
text from the count field (the field reads happen inside the guard). -/
def statusBarSegment (stats : JsVal) (id percField valField : String) : DomM Unit := do
  let ex ← elemExistsM id
  if ex then
    let p ← getFieldM stats percField
    setStyleWidthM id (jsToString p ++ "%")
    let v ← getFieldM stats valField
    updateElement id v
  else
    pure ()

/-- One legend line of `updateStatusBar` (data loader, lines 228-231):
`updateElement(id, label + ' (' + formatPercent(stats[percField]) + '%)')`. -/
def legendSegment (stats : JsVal) (id label percField : String) : DomM Unit := do
  let p ← getFieldM stats percField
  let s ← formatPercentM p
  updateElement id (.str (label ++ " (" ++ s ++ "%)"))

/-- Embeds `updateStatusBar` (data loader, lines 204-232). -/
def updateStatusBar (stats : JsVal) : DomM Unit := do
  statusBarSegment stats "bar-atendidas" "perc_atendidas" "atendidas"
  statusBarSegment stats "bar-baixadas" "perc_baixadas" "baixadas"
  statusBarSegment stats "bar-implementacao" "perc_em_implementacao" "em_implementacao"
  statusBarSegment stats "bar-pendentes" "perc_pendentes" "pendentes"
  legendSegment stats "legend-atendidas" "Atendidas" "perc_atendidas"
  legendSegment stats "legend-baixadas" "Baixadas" "perc_baixadas"
  legendSegment stats "legend-implementacao" "Em Implementação" "perc_em_implementacao"
  legendSegment stats "legend-pendentes" "Pendentes" "perc_pendentes"

/-- One iteration of the `segments.forEach` of `updateProgressBar` (data
loader, lines 245-251): guarded on element existence, set width then text
(the field values were already read when the `segments` array literal was
built). -/
def progressSegment (id : String) (perc value : JsVal) : DomM Unit := do
  let ex ← elemExistsM id
  if ex then
    setStyleWidthM id (jsToString perc ++ "%")
    updateElement id value
  else
    pure ()

/-- Embeds `updateProgressBar` (data loader, lines 237-252): the
`segments` array literal reads all eight fields up front, then each
segment is applied in order. -/
def updateProgressBar (stats : JsVal) : DomM Unit := do
  let pa ← getFieldM stats "perc_atendidas"
  let va ← getFieldM stats "atendidas"
  let pb ← getFieldM stats "perc_baixadas"
  let vb ← getFieldM stats "baixadas"
  let pi2 ← getFieldM stats "perc_em_implementacao"
  let vi ← getFieldM stats "em_implementacao"
  let pp ← getFieldM stats "perc_pendentes"
  let vp ← getFieldM stats "pendentes"
  progressSegment "progress-atendidas" pa va
  progressSegment "progress-baixadas" pb vb
  progressSegment "progress-implementacao" pi2 vi
  progressSegment "progress-pendentes" pp vp

/-- `items.forEach((item, index) => f item index)` over a JS array. -/
def jsForEachIdx (f : JsVal → ℕ → DomM Unit) : List JsVal → ℕ → DomM Unit
  | [], _ => pure ()
  | x :: xs, i => do
      f x i
      jsForEachIdx f xs (i + 1)

/-- Embeds `updateDashboard` (data loader, lines 69-100), taking the
already-loaded stats value (`await loadStats()` is composed explicitly in
the theorems).  `if (!stats) return;` then the sequence of writes of the
source, in source order. -/
def updateDashboard (stats : JsVal) : DomM Unit := do
  if truthy stats then
    let v1 ← getFieldM stats "total_relatorios"
    updateElement "card-relatorios" v1
    let v2 ← getFieldM stats "total_recomendacoes"
    updateElement "card-recomendacoes" v2
    let v3 ← getFieldM stats "beneficios"
    updateElement "card-beneficios" v3
    let v4 ← getFieldM stats "total_unidades"
    updateElement "card-unidades" v4
    updateStatusBar stats
    let ef ← getFieldM stats "efetividade"
    let efS ← formatPercentM ef
    updateElement "efetividade-valor" (.str (efS ++ "%"))
    let ab ← getFieldM stats "beneficios"
    updateElement "efetividade-atendidas-baixadas" ab
    let tot ← getFieldM stats "total_recomendacoes"
    updateElement "efetividade-total" tot
    let gx ← elemExistsM "gauge-arc"
    if gx then
      let ef2 ← getFieldM stats "efetividade"
      setGaugeDM "gauge-arc" ef2
    else
      pure ()
    let a1 ← getFieldM stats "anos_atuacao"
    updateElement "stat-anos" a1
    let a2 ← getFieldM stats "total_relatorios"
    updateElement "stat-relatorios" a2
    let a3 ← getFieldM stats "total_unidades"
    updateElement "stat-unidades" a3
    let a4 ← getFieldM stats "data_atualizacao"
    updateElement "data-atualizacao" a4
  else
    pure ()

/-- Embeds `updateMonitoramento` (data loader, lines 105-127). -/
def updateMonitoramento (stats : JsVal) : DomM Unit := do
  if truthy stats then
    let v1 ← getFieldM stats "atendidas"
    updateElement "monitor-atendidas" v1
    let p1 ← getFieldM stats "perc_atendidas"
    let s1 ← formatPercentM p1
    updateElement "monitor-atendidas-perc" (.str (s1 ++ "%"))
    let v2 ← getFieldM stats "baixadas"
    updateElement "monitor-baixadas" v2
    let p2 ← getFieldM stats "perc_baixadas"
    let s2 ← formatPercentM p2
    updateElement "monitor-baixadas-perc" (.str (s2 ++ "%"))
    let v3 ← getFieldM stats "em_implementacao"
    updateElement "monitor-implementacao" v3
    let p3 ← getFieldM stats "perc_em_implementacao"
    let s3 ← formatPercentM p3
    updateElement "monitor-implementacao-perc" (.str (s3 ++ "%"))
    let v4 ← getFieldM stats "pendentes"
    updateElement "monitor-pendentes" v4
    let p4 ← getFieldM stats "perc_pendentes"
    let s4 ← formatPercentM p4
    updateElement "monitor-pendentes-perc" (.str (s4 ++ "%"))
    let ef ← getFieldM stats "efetividade"
    let efS ← formatPercentM ef
    updateElement "monitor-resolvidas-perc" (.str (efS ++ "% Resolvidas"))
    updateProgressBar stats
  else
    pure ()

/-- Embeds `updateBeneficios` (data loader, lines 132-148). -/
def updateBeneficios (stats : JsVal) : DomM Unit := do
  if truthy stats then
    let v1 ← getFieldM stats "beneficios"
    updateElement "beneficios-total" v1
    let v2 ← getFieldM stats "unidades_com_beneficios"
    updateElement "beneficios-unidades" v2
    let v3 ← getFieldM stats "media_beneficios_unidade"
    let s3 ← formatPercentM v3
    updateElement "beneficios-media" (.str s3)
    let top ← getFieldM stats "top_unidades_beneficios"
    if truthy top then
      match top with
      | .arr items =>
          jsForEachIdx (fun item index => do
            let nm ← getFieldM item "unidade"
            updateElement ("top-beneficio-" ++ Nat.repr (index + 1) ++ "-nome") nm
            let tt ← getFieldM item "total"
            updateElement ("top-beneficio-" ++ Nat.repr (index + 1) ++ "-total") tt) items 0
      | _ => jsThrow
    else
      pure ()
  else
    pure ()

/-- Embeds `updateRaioX` (data loader, lines 153-173). -/
def updateRaioX (stats : JsVal) : DomM Unit := do
  if truthy stats then
    let v1 ← getFieldM stats "total_unidades"
    updateElement "raiox-unidades" v1
    let v2 ← getFieldM stats "anos_atuacao"
    updateElement "raiox-anos" v2
    let ai ← getFieldM stats "ano_inicio"
    let af ← getFieldM stats "ano_fim"
    updateElement "raiox-periodo" (.str (jsToString ai ++ " - " ++ jsToString af))
    let m ← getFieldM stats "media_rec_ano"
    let ms ← formatPercentM m
    updateElement "raiox-media" (.str ms)
    let ap ← getFieldM stats "ano_pico"
    updateElement "raiox-ano-pico" ap
    let rp ← getFieldM stats "rec_ano_pico"
    updateElement "raiox-rec-pico" (.str (jsToString rp ++ " recomendações"))
    let top ← getFieldM stats "top_unidades_recomendacoes"
    if truthy top then
      match top with
      | .arr items =>
          jsForEachIdx (fun item index => do
            let nm ← getFieldM item "unidade"
            updateElement ("top-rec-" ++ Nat.repr (index + 1) ++ "-nome") nm
            let tt ← getFieldM item "total"
            updateElement ("top-rec-" ++ Nat.repr (index + 1) ++ "-total") tt
            let pc ← getFieldM item "percentual"
            let ps ← formatPercentM pc
            updateElement ("top-rec-" ++ Nat.repr (index + 1) ++ "-perc")
              (.str (ps ++ "% do total"))) (items.take 3) 0
      | _ => jsThrow
    else
      pure ()
  else
    pure ()

/-- Embeds `updateRelatorios` (data loader, lines 178-189). -/
def updateRelatorios (stats : JsVal) : DomM Unit := do
  if truthy stats then
    let top ← getFieldM stats "top_unidades_recomendacoes"
    if truthy top then
      match top with
      | .arr items =>
          jsForEachIdx (fun item index => do
            let nm ← getFieldM item "unidade"
            updateElement ("report-top-" ++ Nat.repr (index + 1) ++ "-nome") nm
            let tt ← getFieldM item "total"
            updateElement ("report-top-" ++ Nat.repr (index + 1) ++ "-total") tt) (items.take 5) 0
      | _ => jsThrow
    else
      pure ()
  else
    pure ()

/-- Text content of an element, if the element exists. -/
def findText (d : Dom) (id : String) : Option String :=
  (assocFind d id).map (fun e => e.textContent)

/-- The effect of one `textContent` write on a document (a no-op when the
element is absent).  `updateElement id v` is exactly
`setTextW id (jsToTextContent v)` plus the `some ()` result. -/
def setTextW (id s : String) (d : Dom) : Dom :=
  assocModify (fun e => { e with textContent := s }) d id

/-- The effect of one `style.width` write on a document (a no-op when the
element is absent). -/
def setWidthW (id w : String) (d : Dom) : Dom :=
  assocModify (fun e => { e with styleWidth := w }) d id

/-- The effect of one guarded status-bar block run on a stats document
whose fields are all missing: `style.width` becomes `"undefined%"` and the
text becomes the empty string (and nothing happens when the bar element is
absent, which the two no-op writes also express). -/
def barWrite (id : String) (d : Dom) : Dom :=
  setTextW id "" (setWidthW id "undefined%" d)

/-- An accordion trigger button as `toggleAccordionPanel` reads it: its
`aria-controls` and `aria-expanded` attributes (`none` when the attribute
is absent; `getAttribute` then returns `null`). -/
structure AccTrigger where
  ariaControls : Option String
  ariaExpanded : Option String

/-- An accordion panel: whether its `hidden` attribute is present. -/
structure AccPanel where
  hidden : Bool

/-- The DOM as one accordion click sees it: the clicked trigger and the
documents panels by id. -/
structure AccState where
  trigger : AccTrigger
  panels : List (String × AccPanel)

/-- Embeds `toggleAccordionPanel` (audin-core.js, lines 74-93): read
`aria-controls` (returning if it is `null` or the falsy empty string),
look the panel up (returning if absent), then flip `aria-expanded`
between the strings "true" and "false" and set or remove the panel's
`hidden` attribute accordingly. -/
def toggleAccordionPanel (s : AccState) : AccState :=
  match s.trigger.ariaControls with
  | none => s
  | some panelId =>
      if panelId = "" then s
      else
        match assocFind s.panels panelId with
        | none => s
        | some _ =>
            let isExpanded := s.trigger.ariaExpanded == some "true"
            { trigger := { s.trigger with
                ariaExpanded := some (cond isExpanded "false" "true") },
              panels := assocModify (fun _ => ⟨isExpanded⟩) s.panels panelId }

/-- The accordion invariant of the spec: for the panel the trigger
controls, `aria-expanded` is the string "true" exactly when the panel is
not hidden. -/
def accordionConsistent (s : AccState) : Prop :=
  ∀ pid p, s.trigger.ariaControls = some pid → assocFind s.panels pid = some p →
    ((s.trigger.ariaExpanded = some "true") ↔ p.hidden = false)

/-- A tab button as `activateTab` writes it: `aria-selected`, `tabindex`
and the `audin-dash__tab--active` class. -/
structure TabElem where
  ariaSelected : Option String
  tabindex : Option String
  activeClass : Bool

/-- A tab panel: its `hidden` property. -/
structure TabPanel where
  hidden : Bool

/-- One tab group of `AUDIN.initTabs`: the tabs of the tablist in order,
and for each tab the panel its `aria-controls` resolves to (`none` when
`getElementById` found nothing; `activateTab` guards on that). -/
structure TabGroup where
  tabs : List TabElem
  panels : List (Option TabPanel)

/-- Map with the element index, starting at `i`. -/
def mapIdxFrom {α β : Type} (f : ℕ → α → β) : ℕ → List α → List β
  | _, [] => []
  | i, x :: xs => f i x :: mapIdxFrom f (i + 1) xs

/-- Embeds `activateTab` (audin-core.js, lines 770-787): every tab gets
`aria-selected = String(i === index)`, the active class toggled to
`i === index` and `tabindex` `'0'`/`'-1'`; every existing panel gets
`hidden = (i !== index)`.  Indices are JS numbers, modelled as `ℤ`.
The trailing `setTimeout` resize dispatch has no effect on this state. -/
def activateTab (g : TabGroup) (index : ℤ) : TabGroup :=
  { tabs := mapIdxFrom (fun i _t =>
      { ariaSelected := some (cond ((i : ℤ) == index) "true" "false")
        tabindex := some (cond ((i : ℤ) == index) "0" "-1")
        activeClass := ((i : ℤ) == index) }) 0 g.tabs
    panels := mapIdxFrom (fun i p =>
      p.map (fun _pp => ⟨((i : ℤ) != index)⟩)) 0 g.panels }

/-- The target index computed by the keydown handler of `AUDIN.initTabs`
(audin-core.js, lines 745-764): ArrowRight and ArrowLeft move cyclically
(the JS `%` is the truncating remainder, `Int.tmod`), Home goes to `0`,
End to `tabs.length - 1`; any other key leaves the handler. -/
def tabKeyTarget (key : String) (index : ℤ) (n : ℕ) : Option ℤ :=
  if key == "ArrowRight" then some (Int.tmod (index + 1) n)
  else if key == "ArrowLeft" then some (Int.tmod (index - 1 + n) n)
  else if key == "Home" then some 0
  else if key == "End" then some ((n : ℤ) - 1)
  else none

/-- A keydown on the tab at `index`: if the key is handled, activate the
target tab (the focus move is not part of the modelled state). -/
def tabKeydown (g : TabGroup) (index : ℤ) (key : String) : TabGroup :=
  match tabKeyTarget key index g.tabs.length with
  | none => g
  | some t => activateTab g t

/-- Whether a list starts with a pattern (character-wise). -/
def listStartsWith : List Char → List Char → Bool
  | _, [] => true
  | [], _ :: _ => false
  | a :: as, b :: bs => a == b && listStartsWith as bs

/-- `String.prototype.includes`: some suffix of `s` starts with `pat`. -/
def jsIncludes : List Char → List Char → Bool
  | [], pat => pat.isEmpty
  | a :: rest, pat => listStartsWith (a :: rest) pat || jsIncludes rest pat

/-- `String.prototype.endsWith`. -/
def jsEndsWith (s pat : List Char) : Bool :=
  listStartsWith s.reverse pat.reverse

/-- The five page binders the route dispatcher can select. -/
inductive PageBinder : Type where
  | dashboard
  | monitoramento
  | beneficios
  | raioX
  | relatorios
deriving DecidableEq

/-- Embeds the path matching of `initDataLoader` (data loader, lines
257-271): the ordered `if`/`else if` chain over
`window.location.pathname`, returning which binder is invoked (`none`
when no rule matches). -/
def initDataLoader (path : List Char) : Option PageBinder :=
  if path == "/".toList || path == "/index.html".toList ||
      (jsEndsWith path "/index.html".toList && !(jsIncludes path "/".toList)) then
    some .dashboard
  else if jsIncludes path "/monitor/".toList then some .monitoramento
  else if jsIncludes path "/beneficios/".toList then some .beneficios
  else if jsIncludes path "/raio-x/".toList then some .raioX
  else if jsIncludes path "/report/".toList then some .relatorios
  else none

/-- Modelled from the spec: "a fixed ordered set of substring/equality
rules", selecting the first rule that matches.  Used to state that
`initDataLoader` is exactly a first-match dispatch. -/
def firstMatch {α : Type} : List ((List Char → Bool) × α) → List Char → Option α
  | [], _ => none
  | (r, a) :: rest, p => if r p then some a else firstMatch rest p

/-- The dispatch rules of `initDataLoader`, in source order. -/
def dispatchRules : List ((List Char → Bool) × PageBinder) :=
  [ (fun p => p == "/".toList || p == "/index.html".toList ||
      (jsEndsWith p "/index.html".toList && !(jsIncludes p "/".toList)), .dashboard)
  , (fun p => jsIncludes p "/monitor/".toList, .monitoramento)
  , (fun p => jsIncludes p "/beneficios/".toList, .beneficios)
  , (fun p => jsIncludes p "/raio-x/".toList, .raioX)
  , (fun p => jsIncludes p "/report/".toList, .relatorios) ]

/-- An `.audin-relatorio-item` list entry as `filtrar` sees it: its three
data-attributes (`none` when absent; `dataset` access then yields
`undefined`) and whether it carries the `audin-hidden` class. -/
structure FiltroItem where
  dataPeriodo : Option String
  dataTipo : Option String
  dataBusca : Option String
  hidden : Bool

/-- The page state the `filtrar` closure of `AUDIN.initFiltros` captures:
the two select values and the search input value (each `none` when the
control is absent), the list items, and the `audin-hidden` class of the
empty-list message (`none` when the message element is absent). -/
structure FiltroState where
  periodoSelect : Option String
  tipoSelect : Option String
  buscaInput : Option String
  items : List FiltroItem
  vazioMsgHidden : Option Bool

/-- `String.prototype.toLowerCase` (character-wise; the full Unicode case
mapping is not modelled, which is immaterial to the stated iff since both
sides apply the same function). -/
def jsToLowerCase (s : String) : String := String.map Char.toLower s

/-- `String.prototype.trim`. -/
def jsTrim (s : String) : String := s.trim

/-- `s.indexOf(pat) !== -1` on strings. -/
def jsStrIncludes (s pat : String) : Bool := jsIncludes s.data pat.data

/-- The match predicate of one loop iteration of `filtrar` (audin-core.js,
lines 219-221): `matchPeriodo && matchTipo && matchBusca` for the given
(already lowercased and trimmed) search string. -/
def itemMatches (periodo tipo busca : String) (item : FiltroItem) : Bool :=
  (periodo == "" || item.dataPeriodo == some periodo) &&
  (tipo == "" || item.dataTipo == some tipo) &&
  (busca == "" || jsStrIncludes (jsToLowerCase (item.dataBusca.getD "")) busca)

/-- Embeds the `filtrar` closure (audin-core.js, lines 212-239): read the
three control values (`''` when a control is absent), set or remove
`audin-hidden` on every item according to the three criteria while
counting the visible ones, then show the empty message exactly when no
item stayed visible (the single `forEach` with its `visiveis` counter is
rendered as a map plus a count of the same predicate). -/
def filtrar (st : FiltroState) : FiltroState :=
  let periodo := st.periodoSelect.getD ""
  let tipo := st.tipoSelect.getD ""
  let busca := jsTrim (jsToLowerCase (st.buscaInput.getD ""))
  let items := st.items.map (fun item =>
    if itemMatches periodo tipo busca item then { item with hidden := false }
    else { item with hidden := true })
  let visiveis := st.items.countP (itemMatches periodo tipo busca)
  { st with items := items
            vazioMsgHidden := st.vazioMsgHidden.map (fun _ => !(visiveis == 0)) }

/-! ## Shared lemmas -/

theorem assocFind_assocModify {α : Type} (f : α → α) (l : List (String × α)) (k : String) :
    assocFind (assocModify f l k) k = (assocFind l k).map f := by
  induction l with
  | nil => rfl
  | cons hd tl ih =>
      obtain ⟨k', v⟩ := hd
      by_cases h : k' = k <;> simp [assocFind, assocModify, h, ih]

theorem assocModify_not_found {α : Type} (f : α → α) (l : List (String × α)) (k : String)
    (h : assocFind l k = none) : assocModify f l k = l := by
  induction l with
  | nil => rfl
  | cons hd tl ih =>
      obtain ⟨k', v⟩ := hd
      by_cases hk : k' = k
      · rw [hk] at h
        simp [assocFind] at h
      · simp only [assocFind, if_neg hk] at h
        simp [assocModify, hk, ih h]

theorem assocFind_assocModify_ne {α : Type} (f : α → α) (l : List (String × α))
    (k k' : String) (h : k' ≠ k) :
    assocFind (assocModify f l k) k' = assocFind l k' := by
  induction l with
  | nil => rfl
  | cons hd tl ih =>
      obtain ⟨k0, v⟩ := hd
      by_cases hk : k0 = k
      · subst hk
        have hne : ¬ k0 = k' := fun he => h he.symm
        simp [assocModify, assocFind, hne]
      · by_cases hk' : k0 = k'
        · subst hk'
          simp [assocModify, assocFind, hk]
        · simp [assocModify, assocFind, hk, hk', ih]

theorem DomM_bind_ok {α β : Type} (x : DomM α) (f : α → DomM β) {d d' : Dom} {a : α}
    (h : x d = (d', some a)) : (x >>= f) d = f a d' := by
  show (match x d with
        | (d1, some a) => f a d1
        | (d1, none) => (d1, none)) = f a d'
  rw [h]

theorem DomM_bind_err {α β : Type} (x : DomM α) (f : α → DomM β) {d d' : Dom}
    (h : x d = (d', none)) : (x >>= f) d = ((d', none) : Dom × Option β) := by
  show (match x d with
        | (d1, some a) => f a d1
        | (d1, none) => (d1, none)) = (d', none)
  rw [h]

theorem findText_setTextW_eq (id s : String) (d : Dom) :
    findText (setTextW id s d) id = (findText d id).map (fun _ => s) := by
  show (assocFind (assocModify (fun e => { e with textContent := s }) d id) id).map
      (fun e => e.textContent)
    = ((assocFind d id).map (fun e => e.textContent)).map (fun _ => s)
  rw [assocFind_assocModify]
  cases assocFind d id <;> rfl

theorem findText_setTextW_ne (id' s : String) (d : Dom) (id : String) (h : id ≠ id') :
    findText (setTextW id' s d) id = findText d id := by
  show (assocFind (assocModify (fun e => { e with textContent := s }) d id') id).map
      (fun e => e.textContent) = findText d id
  rw [assocFind_assocModify_ne _ _ _ _ h]
  rfl

theorem findText_setWidthW (id' w : String) (d : Dom) (id : String) :
    findText (setWidthW id' w d) id = findText d id := by
  by_cases h : id = id'
  · subst h
    show (assocFind (assocModify (fun e => { e with styleWidth := w }) d id) id).map
        (fun e => e.textContent)
      = (assocFind d id).map (fun e => e.textContent)
    rw [assocFind_assocModify]
    cases assocFind d id <;> rfl
  · show (assocFind (assocModify (fun e => { e with styleWidth := w }) d id') id).map
        (fun e => e.textContent) = findText d id
    rw [assocFind_assocModify_ne _ _ _ _ h]
    rfl

theorem findText_barWrite_ne (id' : String) (x : Dom) (id : String) (h : id ≠ id') :
    findText (barWrite id' x) id = findText x id := by
  show findText (setTextW id' "" (setWidthW id' "undefined%" x)) id = _
  rw [findText_setTextW_ne _ _ _ _ h, findText_setWidthW]

theorem findText_preserve (s : String) (hs : s ≠ "undefined") (id' : String) (d : Dom)
    (id : String) (h : findText d id ≠ some "undefined") :
    findText (setTextW id' s d) id ≠ some "undefined" := by
  by_cases he : id = id'
  · subst he
    rw [findText_setTextW_eq]
    cases hfd : findText d id
    · simp
    · simp [hs]
  · rw [findText_setTextW_ne _ _ _ _ he]
    exact h

theorem findText_barWrite_preserve (id' : String) (x : Dom) (id : String)
    (h : findText x id ≠ some "undefined") :
    findText (barWrite id' x) id ≠ some "undefined" := by
  show findText (setTextW id' "" (setWidthW id' "undefined%" x)) id ≠ some "undefined"
  apply findText_preserve _ (by decide)
  rw [findText_setWidthW]
  exact h

theorem formatPercent_ne_undefined (q : ℚ) : formatPercent q ≠ "undefined" := by
  intro h
  have hdata : ∀ a b : String, (a ++ b).data = a.data ++ b.data := fun a b => rfl
  have hc : ',' ∈ (formatPercent q).data := by
    show ',' ∈ ((((if q < 0 then "-" else "")
        ++ ptBRGroup (Nat.repr ((20 * q.num.natAbs + q.den) / (2 * q.den) / 10))) ++ ",")
        ++ Nat.repr ((20 * q.num.natAbs + q.den) / (2 * q.den) % 10)).data
    rw [hdata, hdata]
    exact List.mem_append.mpr (Or.inl (List.mem_append.mpr (Or.inr (by decide))))
  rw [h] at hc
  exact absurd hc (by decide)

theorem mapIdxFrom_getElem? {α β : Type} (f : ℕ → α → β) (i j : ℕ) (l : List α) :
    (mapIdxFrom f i l)[j]? = (l[j]?).map (f (i + j)) := by
  induction l generalizing i j with
  | nil => simp [mapIdxFrom]
  | cons x xs ih =>
      cases j with
      | zero => simp [mapIdxFrom]
      | succ j =>
          have h := ih (i + 1) j
          have harith : i + 1 + j = i + (j + 1) := by omega
          rw [harith] at h
          simpa [mapIdxFrom] using h

theorem mem_of_listStartsWith {s pat : List Char} (h : listStartsWith s pat = true)
    {c : Char} (hc : c ∈ pat) : c ∈ s := by
  induction pat generalizing s with
  | nil => cases hc
  | cons b bs ih =>
      cases s with
      | nil => simp [listStartsWith] at h
      | cons a as =>
          simp only [listStartsWith, Bool.and_eq_true, beq_iff_eq] at h
          rcases List.mem_cons.mp hc with rfl | hmem
          · rw [← h.1]; exact List.mem_cons_self a as
          · exact List.mem_cons_of_mem a (ih h.2 hmem)

theorem jsIncludes_of_mem {s : List Char} {c : Char} (h : c ∈ s) :
    jsIncludes s [c] = true := by
  induction s with
  | nil => cases h
  | cons a rest ih =>
      rcases List.mem_cons.mp h with rfl | hmem
      · simp [jsIncludes, listStartsWith]
      · simp [jsIncludes, ih hmem]

theorem slash_mem_of_jsEndsWith {s : List Char}
    (h : jsEndsWith s "/index.html".toList = true) : '/' ∈ s := by
  have hm : '/' ∈ ("/index.html".toList).reverse := by decide
  have := mem_of_listStartsWith h hm
  exact List.mem_reverse.mp this

/-! ## C1, C9, C4 — the stats fetcher -/

/-- C1: if a first call to `loadStats` succeeds (caching the parsed
document, an object and hence truthy, in `statsData`), then a second call
returns the identical cached object with the loader state — in
particular the request counter — unchanged: no second network request is
issued. -/
theorem loadStats_second_call_returns_cache (st : LoaderState)
    (fields : List (String × JsVal)) (net2 : Except String JsVal)
    (h : truthy st.statsData = false) :
    (loadStats st (.ok (.obj fields))).1 = .obj fields ∧
    (loadStats st (.ok (.obj fields))).2.requests = st.requests + 1 ∧
    loadStats (loadStats st (.ok (.obj fields))).2 net2
      = ((loadStats st (.ok (.obj fields))).1, (loadStats st (.ok (.obj fields))).2) := by
  have hobj : truthy (.obj fields) = true := rfl
  simp [loadStats, h, hobj]

theorem loadStats_second_call_returns_cache_witness :
    truthy initialLoaderState.statsData = false ∧
    (loadStats initialLoaderState (.ok (.obj [("efetividade", .num 5)]))).1
      = .obj [("efetividade", .num 5)] ∧
    (loadStats initialLoaderState (.ok (.obj [("efetividade", .num 5)]))).2.requests
      = initialLoaderState.requests + 1 ∧
    loadStats (loadStats initialLoaderState (.ok (.obj [("efetividade", .num 5)]))).2
        (.error "offline")
      = ((loadStats initialLoaderState (.ok (.obj [("efetividade", .num 5)]))).1,
         (loadStats initialLoaderState (.ok (.obj [("efetividade", .num 5)]))).2) :=
  ⟨rfl, loadStats_second_call_returns_cache initialLoaderState
    [("efetividade", .num 5)] (.error "offline") rfl⟩

/-- C9: a failed call does not populate the cache: `statsData` is left
unchanged (the assignment never executed), so the next call — the cache
still being falsy — issues a fresh network request, whatever that
request's outcome. -/
theorem loadStats_failure_not_cached (st : LoaderState) (e : String)
    (net2 : Except String JsVal) (h : truthy st.statsData = false) :
    (loadStats st (.error e)).2.statsData = st.statsData ∧
    (loadStats (loadStats st (.error e)).2 net2).2.requests
      = (loadStats st (.error e)).2.requests + 1 := by
  cases net2 <;> simp [loadStats, h]

theorem loadStats_failure_not_cached_witness :
    truthy initialLoaderState.statsData = false ∧
    (loadStats initialLoaderState (.error "offline")).2.statsData
      = initialLoaderState.statsData ∧
    (loadStats (loadStats initialLoaderState (.error "offline")).2
        (.ok (.obj []))).2.requests
      = (loadStats initialLoaderState (.error "offline")).2.requests + 1 :=
  ⟨rfl, loadStats_failure_not_cached initialLoaderState "offline" (.ok (.obj [])) rfl⟩

/-- C4: every retrieval or parse failure in `loadStats` is reported to the
`console.error` log and the function returns the empty result `null`; each
of the five dependent binders applied to that result then returns without
writing to any DOM element (the document is untouched and nothing is
thrown), so the UI stays at its static markup defaults. -/
theorem loadStats_failure_logged_and_binders_noop (st : LoaderState) (e : String)
    (d : Dom) (h : truthy st.statsData = false) :
    (loadStats st (.error e)).1 = .null ∧
    (loadStats st (.error e)).2.log = st.log ++ ["Erro ao carregar stats.json: " ++ e] ∧
    updateDashboard (loadStats st (.error e)).1 d = (d, some ()) ∧
    updateMonitoramento (loadStats st (.error e)).1 d = (d, some ()) ∧
    updateBeneficios (loadStats st (.error e)).1 d = (d, some ()) ∧
    updateRaioX (loadStats st (.error e)).1 d = (d, some ()) ∧
    updateRelatorios (loadStats st (.error e)).1 d = (d, some ()) := by
  have hfst : (loadStats st (.error e)).1 = .null := by simp [loadStats, h]
  refine ⟨hfst, ?_, ?_, ?_, ?_, ?_, ?_⟩
  · simp [loadStats, h]
  all_goals rw [hfst]
  all_goals rfl

theorem loadStats_failure_logged_and_binders_noop_witness :
    truthy initialLoaderState.statsData = false ∧
    (loadStats initialLoaderState (.error "parse error")).1 = .null ∧
    updateDashboard (loadStats initialLoaderState (.error "parse error")).1
        [("card-relatorios", ⟨"42", "", none⟩)]
      = ([("card-relatorios", ⟨"42", "", none⟩)], some ()) :=
  ⟨rfl,
    (loadStats_failure_logged_and_binders_noop initialLoaderState "parse error"
      [("card-relatorios", ⟨"42", "", none⟩)] rfl).1,
    (loadStats_failure_logged_and_binders_noop initialLoaderState "parse error"
      [("card-relatorios", ⟨"42", "", none⟩)] rfl).2.2.1⟩

/-! ## C3 — missing stats fields and `updateElement` -/

/-- C3 counterexample: a stats document missing every field, against a
document whose `card-relatorios` element holds the static text "42".
`updateDashboard` overwrites that element's text with the empty string
(the `undefined` field value coerces to `null` and then to `""` on
assignment to `textContent`), so the element's text is not left
unchanged. -/
theorem updateDashboard_missing_field_overwrites :
    findText [("card-relatorios", ⟨"42", "", none⟩)] "card-relatorios" = some "42" ∧
    findText (updateDashboard (.obj []) [("card-relatorios", ⟨"42", "", none⟩)]).1
        "card-relatorios" = some "" ∧
    (some "" : Option String) ≠ some "42" :=
  ⟨rfl, rfl, by decide⟩

/-- One guarded status-bar block on the stats document missing every
field: if the bar element exists, its width is set to "undefined%"
(`jsToString` of the `undefined` percentage plus "%") and its text to the
empty string; if it is absent nothing happens — which the two no-op
writes of `barWrite` also denote. -/
theorem statusBarSegment_obj_nil (id pf vf : String) (x : Dom) :
    statusBarSegment (.obj []) id pf vf x = (barWrite id x, some ()) := by
  show (if (assocFind x id).isSome = true then
        (do
          let p ← getFieldM (JsVal.obj []) pf
          setStyleWidthM id (jsToString p ++ "%")
          let v ← getFieldM (JsVal.obj []) vf
          updateElement id v : DomM Unit)
      else pure ()) x
    = (barWrite id x, some ())
  rcases hfind : assocFind x id with _ | e
  · rw [if_neg (by decide)]
    have hbw : barWrite id x = x := by
      show setTextW id "" (setWidthW id "undefined%" x) = x
      unfold setTextW setWidthW
      rw [assocModify_not_found _ _ _ hfind, assocModify_not_found _ _ _ hfind]
    rw [hbw]
    rfl
  · rfl

/-- `updateStatusBar` on the stats document missing every field: the four
bar blocks run (width "undefined%", text empty, absent bars untouched),
then the first legend's `formatPercent(undefined)` throws, so no legend is
written and the function exits with the exception. -/
theorem updateStatusBar_obj_nil (x : Dom) :
    updateStatusBar (.obj []) x
      = (barWrite "bar-pendentes" (barWrite "bar-implementacao"
          (barWrite "bar-baixadas" (barWrite "bar-atendidas" x))), none) := by
  refine Eq.trans (DomM_bind_ok _ _
    (statusBarSegment_obj_nil "bar-atendidas" "perc_atendidas" "atendidas" x)) ?_
  refine Eq.trans (DomM_bind_ok _ _
    (statusBarSegment_obj_nil "bar-baixadas" "perc_baixadas" "baixadas" _)) ?_
  refine Eq.trans (DomM_bind_ok _ _
    (statusBarSegment_obj_nil "bar-implementacao" "perc_em_implementacao"
      "em_implementacao" _)) ?_
  refine Eq.trans (DomM_bind_ok _ _
    (statusBarSegment_obj_nil "bar-pendentes" "perc_pendentes" "pendentes" _)) ?_
  rfl

/-- C3 (amended): if the stats document is missing the corresponding field
but the DOM element exists, the element's text content is not in general
left unchanged: an id written directly from the missing field is
overwritten with the empty string (and a status-bar width with
"undefined%"); an id written from a template literal is overwritten with
text embedding "undefined" — "undefined - undefined" for raiox-periodo
and "undefined recomendações" for raiox-rec-pico; an id whose value
passes through `formatPercent`, and every id written after such a call,
is left unchanged because the call throws and aborts the binder; top-N
ids behind a falsy guard are left unchanged; and no element is ever
overwritten with exactly the string "undefined".  Stated as the exact
effect of each of the five binders on an arbitrary document, for the
stats document missing every field and (for `updateRaioX`, reaching the
rec-pico template write) for the document carrying only a numeric
media_rec_ano, together with the per-category consequences. -/
theorem binders_missing_field_behavior (d : Dom) (q : ℚ) :
    updateDashboard (.obj []) d
      = (barWrite "bar-pendentes" (barWrite "bar-implementacao" (barWrite "bar-baixadas"
          (barWrite "bar-atendidas" (setTextW "card-unidades" "" (setTextW "card-beneficios" ""
            (setTextW "card-recomendacoes" "" (setTextW "card-relatorios" "" d))))))), none) ∧
    updateMonitoramento (.obj []) d = (setTextW "monitor-atendidas" "" d, none) ∧
    updateBeneficios (.obj []) d
      = (setTextW "beneficios-unidades" "" (setTextW "beneficios-total" "" d), none) ∧
    updateRaioX (.obj []) d
      = (setTextW "raiox-periodo" "undefined - undefined"
          (setTextW "raiox-anos" "" (setTextW "raiox-unidades" "" d)), none) ∧
    updateRelatorios (.obj []) d = (d, some ()) ∧
    updateRaioX (.obj [("media_rec_ano", .num q)]) d
      = (setTextW "raiox-rec-pico" "undefined recomendações" (setTextW "raiox-ano-pico" ""
          (setTextW "raiox-media" (formatPercent q)
            (setTextW "raiox-periodo" "undefined - undefined"
              (setTextW "raiox-anos" "" (setTextW "raiox-unidades" "" d))))), some ()) ∧
    (∀ e, assocFind d "card-relatorios" = some e →
      findText (updateDashboard (.obj []) d).1 "card-relatorios" = some "") ∧
    (∀ e, assocFind d "raiox-periodo" = some e →
      findText (updateRaioX (.obj []) d).1 "raiox-periodo"
        = some "undefined - undefined") ∧
    findText (updateDashboard (.obj []) d).1 "efetividade-valor"
      = findText d "efetividade-valor" ∧
    (∀ id, findText d id ≠ some "undefined" →
      findText (updateDashboard (.obj []) d).1 id ≠ some "undefined" ∧
      findText (updateMonitoramento (.obj []) d).1 id ≠ some "undefined" ∧
      findText (updateBeneficios (.obj []) d).1 id ≠ some "undefined" ∧
      findText (updateRaioX (.obj []) d).1 id ≠ some "undefined" ∧
      findText (updateRelatorios (.obj []) d).1 id ≠ some "undefined" ∧
      findText (updateRaioX (.obj [("media_rec_ano", .num q)]) d).1 id
        ≠ some "undefined") := by
  have hdash : updateDashboard (.obj []) d
      = (barWrite "bar-pendentes" (barWrite "bar-implementacao" (barWrite "bar-baixadas"
          (barWrite "bar-atendidas" (setTextW "card-unidades" "" (setTextW "card-beneficios" ""
            (setTextW "card-recomendacoes" "" (setTextW "card-relatorios" "" d))))))), none) := by
    refine Eq.trans (DomM_bind_ok _ _
      (rfl : getFieldM (JsVal.obj []) "total_relatorios" d = (d, some JsVal.undefined))) ?_
    refine Eq.trans (DomM_bind_ok _ _
      (rfl : updateElement "card-relatorios" JsVal.undefined d
        = (setTextW "card-relatorios" "" d, some ()))) ?_
    refine Eq.trans (DomM_bind_ok _ _
      (rfl : getFieldM (JsVal.obj []) "total_recomendacoes" (setTextW "card-relatorios" "" d)
        = (setTextW "card-relatorios" "" d, some JsVal.undefined))) ?_
    refine Eq.trans (DomM_bind_ok _ _
      (rfl : updateElement "card-recomendacoes" JsVal.undefined (setTextW "card-relatorios" "" d)
        = (setTextW "card-recomendacoes" "" (setTextW "card-relatorios" "" d), some ()))) ?_
    refine Eq.trans (DomM_bind_ok _ _
      (rfl : getFieldM (JsVal.obj []) "beneficios"
          (setTextW "card-recomendacoes" "" (setTextW "card-relatorios" "" d))
        = (setTextW "card-recomendacoes" "" (setTextW "card-relatorios" "" d),
           some JsVal.undefined))) ?_
    refine Eq.trans (DomM_bind_ok _ _
      (rfl : updateElement "card-beneficios" JsVal.undefined
          (setTextW "card-recomendacoes" "" (setTextW "card-relatorios" "" d))
        = (setTextW "card-beneficios" ""
            (setTextW "card-recomendacoes" "" (setTextW "card-relatorios" "" d)), some ()))) ?_
    refine Eq.trans (DomM_bind_ok _ _
      (rfl : getFieldM (JsVal.obj []) "total_unidades"
          (setTextW "card-beneficios" ""
            (setTextW "card-recomendacoes" "" (setTextW "card-relatorios" "" d)))
        = (setTextW "card-beneficios" ""
            (setTextW "card-recomendacoes" "" (setTextW "card-relatorios" "" d)),
           some JsVal.undefined))) ?_
    refine Eq.trans (DomM_bind_ok _ _
      (rfl : updateElement "card-unidades" JsVal.undefined
          (setTextW "card-beneficios" ""
            (setTextW "card-recomendacoes" "" (setTextW "card-relatorios" "" d)))
        = (setTextW "card-unidades" "" (setTextW "card-beneficios" ""
            (setTextW "card-recomendacoes" "" (setTextW "card-relatorios" "" d))), some ()))) ?_
    exact DomM_bind_err _ _ (updateStatusBar_obj_nil _)
  have hmon : updateMonitoramento (.obj []) d
      = (setTextW "monitor-atendidas" "" d, none) := rfl
  have hben : updateBeneficios (.obj []) d
      = (setTextW "beneficios-unidades" "" (setTextW "beneficios-total" "" d), none) := rfl
  have hraio : updateRaioX (.obj []) d
      = (setTextW "raiox-periodo" "undefined - undefined"
          (setTextW "raiox-anos" "" (setTextW "raiox-unidades" "" d)), none) := rfl
  have hrel : updateRelatorios (.obj []) d = (d, some ()) := rfl
  have hraioq : updateRaioX (.obj [("media_rec_ano", .num q)]) d
      = (setTextW "raiox-rec-pico" "undefined recomendações" (setTextW "raiox-ano-pico" ""
          (setTextW "raiox-media" (formatPercent q)
            (setTextW "raiox-periodo" "undefined - undefined"
              (setTextW "raiox-anos" "" (setTextW "raiox-unidades" "" d))))), some ()) := rfl
  have hdash1 : (updateDashboard (.obj []) d).1
      = barWrite "bar-pendentes" (barWrite "bar-implementacao" (barWrite "bar-baixadas"
          (barWrite "bar-atendidas" (setTextW "card-unidades" "" (setTextW "card-beneficios" ""
            (setTextW "card-recomendacoes" "" (setTextW "card-relatorios" "" d))))))) := by
    rw [hdash]
  have hmon1 : (updateMonitoramento (.obj []) d).1 = setTextW "monitor-atendidas" "" d := by
    rw [hmon]
  have hben1 : (updateBeneficios (.obj []) d).1
      = setTextW "beneficios-unidades" "" (setTextW "beneficios-total" "" d) := by
    rw [hben]
  have hraio1 : (updateRaioX (.obj []) d).1
      = setTextW "raiox-periodo" "undefined - undefined"
          (setTextW "raiox-anos" "" (setTextW "raiox-unidades" "" d)) := by
    rw [hraio]
  have hrel1 : (updateRelatorios (.obj []) d).1 = d := by rw [hrel]
  have hraioq1 : (updateRaioX (.obj [("media_rec_ano", .num q)]) d).1
      = setTextW "raiox-rec-pico" "undefined recomendações" (setTextW "raiox-ano-pico" ""
          (setTextW "raiox-media" (formatPercent q)
            (setTextW "raiox-periodo" "undefined - undefined"
              (setTextW "raiox-anos" "" (setTextW "raiox-unidades" "" d))))) := by
    rw [hraioq]
  refine ⟨hdash, hmon, hben, hraio, hrel, hraioq, ?_, ?_, ?_, ?_⟩
  · intro e he
    rw [hdash1, findText_barWrite_ne _ _ _ (by decide), findText_barWrite_ne _ _ _ (by decide),
      findText_barWrite_ne _ _ _ (by decide), findText_barWrite_ne _ _ _ (by decide),
      findText_setTextW_ne _ _ _ _ (by decide), findText_setTextW_ne _ _ _ _ (by decide),
      findText_setTextW_ne _ _ _ _ (by decide), findText_setTextW_eq]
    show ((assocFind d "card-relatorios").map (fun e => e.textContent)).map (fun _ => "")
      = some ""
    rw [he]
    rfl
  · intro e he
    rw [hraio1, findText_setTextW_eq, findText_setTextW_ne _ _ _ _ (by decide),
      findText_setTextW_ne _ _ _ _ (by decide)]
    show ((assocFind d "raiox-periodo").map (fun e => e.textContent)).map
        (fun _ => "undefined - undefined")
      = some "undefined - undefined"
    rw [he]
    rfl
  · rw [hdash1, findText_barWrite_ne _ _ _ (by decide), findText_barWrite_ne _ _ _ (by decide),
      findText_barWrite_ne _ _ _ (by decide), findText_barWrite_ne _ _ _ (by decide),
      findText_setTextW_ne _ _ _ _ (by decide), findText_setTextW_ne _ _ _ _ (by decide),
      findText_setTextW_ne _ _ _ _ (by decide), findText_setTextW_ne _ _ _ _ (by decide)]
  · intro id h
    refine ⟨?_, ?_, ?_, ?_, ?_, ?_⟩
    · rw [hdash1]
      apply findText_barWrite_preserve
      apply findText_barWrite_preserve
      apply findText_barWrite_preserve
      apply findText_barWrite_preserve
      apply findText_preserve _ (by decide)
      apply findText_preserve _ (by decide)
      apply findText_preserve _ (by decide)
      apply findText_preserve _ (by decide)
      exact h
    · rw [hmon1]
      exact findText_preserve _ (by decide) _ _ _ h
    · rw [hben1]
      apply findText_preserve _ (by decide)
      exact findText_preserve _ (by decide) _ _ _ h
    · rw [hraio1]
      apply findText_preserve _ (by decide)
      apply findText_preserve _ (by decide)
      exact findText_preserve _ (by decide) _ _ _ h
    · rw [hrel1]
      exact h
    · rw [hraioq1]
      apply findText_preserve _ (by decide)
      apply findText_preserve _ (by decide)
      apply findText_preserve _ (formatPercent_ne_undefined q)
      apply findText_preserve _ (by decide)
      apply findText_preserve _ (by decide)
      apply findText_preserve _ (by decide)
      exact h

theorem binders_missing_field_behavior_witness :
    assocFind [("card-relatorios", (⟨"99", "", none⟩ : DomElem))] "card-relatorios"
      = some ⟨"99", "", none⟩ ∧
    findText (updateDashboard (.obj []) [("card-relatorios", ⟨"99", "", none⟩)]).1
      "card-relatorios" = some "" ∧
    findText [("card-relatorios", (⟨"99", "", none⟩ : DomElem))] "card-relatorios"
      ≠ some "undefined" ∧
    findText (updateRaioX (.obj [("media_rec_ano", .num 0)])
      [("card-relatorios", ⟨"99", "", none⟩)]).1 "card-relatorios" ≠ some "undefined" :=
  ⟨rfl,
    (binders_missing_field_behavior [("card-relatorios", ⟨"99", "", none⟩)]
      0).2.2.2.2.2.2.1 ⟨"99", "", none⟩ rfl,
    by decide,
    ((binders_missing_field_behavior [("card-relatorios", ⟨"99", "", none⟩)]
      0).2.2.2.2.2.2.2.2.2 "card-relatorios" (by decide)).2.2.2.2.2⟩

/-! ## C5 — accordion toggle -/

/-- C5: for a trigger whose `aria-controls` references an existing panel,
a click flips `aria-expanded` between the strings "true" and "false" and
writes the panel's `hidden` attribute to the previous expanded state;
after the click the invariant holds that `aria-expanded` is "true"
exactly when the panel is not hidden, and in an already-consistent state
the click flips the panel's `hidden` attribute too — the two attributes
toggle in lockstep and the invariant persists at all times once
established. -/
theorem toggleAccordionPanel_lockstep (s : AccState) (pid : String) (p : AccPanel)
    (hc : s.trigger.ariaControls = some pid) (hne : pid ≠ "")
    (hp : assocFind s.panels pid = some p) :
    ((toggleAccordionPanel s).trigger.ariaExpanded
        = some (cond (s.trigger.ariaExpanded == some "true") "false" "true")) ∧
    (assocFind (toggleAccordionPanel s).panels pid
        = some ⟨s.trigger.ariaExpanded == some "true"⟩) ∧
    accordionConsistent (toggleAccordionPanel s) ∧
    (accordionConsistent s →
      assocFind (toggleAccordionPanel s).panels pid = some ⟨!p.hidden⟩) := by
  have hkey : toggleAccordionPanel s =
      { trigger := { s.trigger with
          ariaExpanded := some (cond (s.trigger.ariaExpanded == some "true") "false" "true") },
        panels := assocModify (fun _ => ⟨s.trigger.ariaExpanded == some "true"⟩)
          s.panels pid } := by
    simp [toggleAccordionPanel, hc, hne, hp]
  have hfind : assocFind (toggleAccordionPanel s).panels pid
      = some ⟨s.trigger.ariaExpanded == some "true"⟩ := by
    rw [hkey]
    show assocFind (assocModify _ s.panels pid) pid = _
    rw [assocFind_assocModify, hp]
    rfl
  refine ⟨by rw [hkey], hfind, ?_, ?_⟩
  · intro pid' p' hc' hp'
    have hpid : pid' = pid := by
      rw [hkey] at hc'
      simp at hc'
      rw [hc] at hc'
      exact (Option.some_injective _ hc').symm
    subst hpid
    rw [hfind] at hp'
    have hp'' := Option.some_injective _ hp'
    subst hp''
    rw [hkey]
    cases hb : (s.trigger.ariaExpanded == some "true") <;> simp [hb]
  · intro hcons
    have hiff := hcons pid p hc hp
    rw [hfind]
    cases hb : (s.trigger.ariaExpanded == some "true")
    · have hne' : ¬ s.trigger.ariaExpanded = some "true" := by
        intro hx
        rw [hx] at hb
        simp at hb
      have : ¬ p.hidden = false := fun hfalse => hne' (hiff.mpr hfalse)
      have hh : p.hidden = true := by
        cases hhid : p.hidden
        · exact absurd hhid this
        · rfl
      rw [hh]
      rfl
    · have heq : s.trigger.ariaExpanded = some "true" := by
        exact eq_of_beq hb
      have : p.hidden = false := hiff.mp heq
      rw [this]
      rfl

theorem toggleAccordionPanel_lockstep_witness :
    (({ trigger := { ariaControls := some "painel-1", ariaExpanded := some "false" },
        panels := [("painel-1", ⟨true⟩)] } : AccState).trigger.ariaControls
      = some "painel-1") ∧
    (toggleAccordionPanel
        { trigger := { ariaControls := some "painel-1", ariaExpanded := some "false" },
          panels := [("painel-1", ⟨true⟩)] }).trigger.ariaExpanded = some "true" ∧
    assocFind (toggleAccordionPanel
        { trigger := { ariaControls := some "painel-1", ariaExpanded := some "false" },
          panels := [("painel-1", ⟨true⟩)] }).panels "painel-1" = some ⟨false⟩ :=
  ⟨rfl,
    (toggleAccordionPanel_lockstep
      { trigger := { ariaControls := some "painel-1", ariaExpanded := some "false" },
        panels := [("painel-1", ⟨true⟩)] } "painel-1" ⟨true⟩ rfl (by decide) rfl).1,
    (toggleAccordionPanel_lockstep
      { trigger := { ariaControls := some "painel-1", ariaExpanded := some "false" },
        panels := [("painel-1", ⟨true⟩)] } "painel-1" ⟨true⟩ rfl (by decide) rfl).2.1⟩

/-! ## C6 — tabs: End key and panel hiding -/

/-- C6: in `AUDIN.initTabs`, pressing End on any tab activates the tab at
index `tabs.length - 1` regardless of the current index, and activating
the tab at index `idx` writes `hidden := (j != idx)` into every existing
panel — every panel at an index other than `idx` is hidden and the panel
at `idx` is unhidden. -/
theorem initTabs_end_key_and_panel_hiding (g : TabGroup) (i : ℤ) (j : ℕ) (idx : ℤ)
    (p : TabPanel) (hp : g.panels[j]? = some (some p)) :
    tabKeydown g i "End" = activateTab g ((g.tabs.length : ℤ) - 1) ∧
    (activateTab g idx).panels[j]? = some (some ⟨((j : ℤ) != idx)⟩) := by
  constructor
  · rfl
  · show (mapIdxFrom _ 0 g.panels)[j]? = _
    rw [mapIdxFrom_getElem?, hp]
    simp

theorem initTabs_end_key_and_panel_hiding_witness :
    (({ tabs := [⟨none, none, false⟩, ⟨none, none, false⟩],
        panels := [some ⟨false⟩, some ⟨true⟩] } : TabGroup).panels[1]?
      = some (some ⟨true⟩)) ∧
    tabKeydown ({ tabs := [⟨none, none, false⟩, ⟨none, none, false⟩],
                  panels := [some ⟨false⟩, some ⟨true⟩] } : TabGroup) 0 "End"
      = activateTab ({ tabs := [⟨none, none, false⟩, ⟨none, none, false⟩],
                       panels := [some ⟨false⟩, some ⟨true⟩] } : TabGroup) (2 - 1) ∧
    (activateTab ({ tabs := [⟨none, none, false⟩, ⟨none, none, false⟩],
                    panels := [some ⟨false⟩, some ⟨true⟩] } : TabGroup) 0).panels[1]?
      = some (some ⟨((1 : ℤ) != 0)⟩) :=
  ⟨rfl,
    (initTabs_end_key_and_panel_hiding
      ({ tabs := [⟨none, none, false⟩, ⟨none, none, false⟩],
         panels := [some ⟨false⟩, some ⟨true⟩] } : TabGroup) 0 1 0 ⟨true⟩ rfl).1,
    (initTabs_end_key_and_panel_hiding
      ({ tabs := [⟨none, none, false⟩, ⟨none, none, false⟩],
         panels := [some ⟨false⟩, some ⟨true⟩] } : TabGroup) 0 1 0 ⟨true⟩ rfl).2⟩

/-! ## C7 — route dispatcher -/

/-- C7: the root-path sub-rule `path.endsWith('/index.html') &&
!path.includes('/')` evaluates to false for every path (a path ending in
"/index.html" necessarily contains "/"), the dispatcher is exactly the
first-match selection over its fixed ordered rule list — so it invokes at
most one binder, chosen by the first matching rule — and a path matching
no rule invokes nothing. -/
theorem initDataLoader_first_match_and_dead_rule :
    (∀ path, (jsEndsWith path "/index.html".toList && !(jsIncludes path "/".toList)) = false) ∧
    (∀ path, initDataLoader path = firstMatch dispatchRules path) ∧
    (∀ path,
      (path == "/".toList || path == "/index.html".toList ||
        (jsEndsWith path "/index.html".toList && !(jsIncludes path "/".toList))) = false →
      jsIncludes path "/monitor/".toList = false →
      jsIncludes path "/beneficios/".toList = false →
      jsIncludes path "/raio-x/".toList = false →
      jsIncludes path "/report/".toList = false →
      initDataLoader path = none) := by
  refine ⟨?_, ?_, ?_⟩
  · intro path
    cases hEnd : jsEndsWith path "/index.html".toList
    · simp
    · have hmem : '/' ∈ path := slash_mem_of_jsEndsWith hEnd
      have hinc := jsIncludes_of_mem hmem
      simp [hinc]
  · intro path
    rfl
  · intro path h1 h2 h3 h4 h5
    unfold initDataLoader
    rw [if_neg (by rw [h1]; decide), if_neg (by rw [h2]; decide),
      if_neg (by rw [h3]; decide), if_neg (by rw [h4]; decide),
      if_neg (by rw [h5]; decide)]

theorem initDataLoader_first_match_and_dead_rule_witness :
    (jsEndsWith "/audin/index.html".toList "/index.html".toList &&
      !(jsIncludes "/audin/index.html".toList "/".toList)) = false ∧
    initDataLoader "/sobre/equipe.html".toList = none :=
  ⟨initDataLoader_first_match_and_dead_rule.1 "/audin/index.html".toList,
    initDataLoader_first_match_and_dead_rule.2.2 "/sobre/equipe.html".toList
      (by decide) (by decide) (by decide) (by decide) (by decide)⟩

/-! ## C10 — report-list filtering -/

/-- C10: after a run of `filtrar`, the item at any position lacks the
`audin-hidden` class exactly when it matches all three active criteria
(selected period equal or empty, selected type equal or empty, lowercased
`data-busca` containing the lowercased-and-trimmed search text or the
search empty), and — when the empty-list message element exists — the
message is visible exactly when zero items are visible. -/
theorem filtrar_visibility_iff (st : FiltroState) (j : ℕ) (item : FiltroItem) (b : Bool)
    (hj : st.items[j]? = some item) (hv : st.vazioMsgHidden = some b) :
    (∃ res, (filtrar st).items[j]? = some res ∧
      (res.hidden = false ↔
        itemMatches (st.periodoSelect.getD "") (st.tipoSelect.getD "")
          (jsTrim (jsToLowerCase (st.buscaInput.getD ""))) item = true)) ∧
    ((filtrar st).vazioMsgHidden = some false ↔
      (filtrar st).items.countP (fun it => !it.hidden) = 0) := by
  have hitems : (filtrar st).items = st.items.map (fun it =>
      if itemMatches (st.periodoSelect.getD "") (st.tipoSelect.getD "")
          (jsTrim (jsToLowerCase (st.buscaInput.getD ""))) it
      then { it with hidden := false } else { it with hidden := true }) := rfl
  have hvz : (filtrar st).vazioMsgHidden = st.vazioMsgHidden.map
      (fun _ => !(st.items.countP (itemMatches (st.periodoSelect.getD "")
        (st.tipoSelect.getD "") (jsTrim (jsToLowerCase (st.buscaInput.getD "")))) == 0)) := rfl
  constructor
  · refine ⟨if itemMatches (st.periodoSelect.getD "") (st.tipoSelect.getD "")
        (jsTrim (jsToLowerCase (st.buscaInput.getD ""))) item
      then { item with hidden := false } else { item with hidden := true }, ?_, ?_⟩
    · rw [hitems, List.getElem?_map, hj]
      rfl
    · cases m : itemMatches (st.periodoSelect.getD "") (st.tipoSelect.getD "")
        (jsTrim (jsToLowerCase (st.buscaInput.getD ""))) item <;> simp [m]
  · rw [hvz, hv, hitems, List.countP_map]
    have hcomp : ((fun it => !it.hidden) ∘ (fun it : FiltroItem =>
        if itemMatches (st.periodoSelect.getD "") (st.tipoSelect.getD "")
            (jsTrim (jsToLowerCase (st.buscaInput.getD ""))) it
        then { it with hidden := false } else { it with hidden := true }))
        = itemMatches (st.periodoSelect.getD "") (st.tipoSelect.getD "")
            (jsTrim (jsToLowerCase (st.buscaInput.getD ""))) := by
      funext x
      cases m : itemMatches (st.periodoSelect.getD "") (st.tipoSelect.getD "")
        (jsTrim (jsToLowerCase (st.buscaInput.getD ""))) x <;> simp [Function.comp, m]
    rw [hcomp]
    simp

/-- A concrete filter page state used to instantiate the filtering
theorem. -/
def filtroExampleState : FiltroState :=
  { periodoSelect := some "2024"
    tipoSelect := some ""
    buscaInput := some " GESTÃO "
    items := [⟨some "2024", some "auditoria", some "gestão de frotas", false⟩]
    vazioMsgHidden := some true }

theorem filtrar_visibility_iff_witness :
    filtroExampleState.items[0]?
      = some ⟨some "2024", some "auditoria", some "gestão de frotas", false⟩ ∧
    (∃ res, (filtrar filtroExampleState).items[0]? = some res ∧
      (res.hidden = false ↔
        itemMatches (filtroExampleState.periodoSelect.getD "")
          (filtroExampleState.tipoSelect.getD "")
          (jsTrim (jsToLowerCase (filtroExampleState.buscaInput.getD "")))
          ⟨some "2024", some "auditoria", some "gestão de frotas", false⟩ = true)) :=
  ⟨rfl,
    (filtrar_visibility_iff filtroExampleState 0
      ⟨some "2024", some "auditoria", some "gestão de frotas", false⟩ true rfl rfl).1⟩

/-! ## C2, C8 — the gauge arc and the formatting example -/

/-- C2: for a percentage in the range 0 to 100, the arc produced by
`calculateGaugeArc` has large-arc flag 1 exactly when the percentage
exceeds 50, and the arc endpoint tends to the rightmost point (180, 100)
as the percentage approaches 100 and to the leftmost point (20, 100) as
it approaches 0 (the endpoint is continuous in the percentage and attains
those values there). -/
theorem calculateGaugeArc_flag_and_endpoint_limits :
    (∀ p : ℝ, 0 ≤ p → p ≤ 100 → ((calculateGaugeArc p).largeArcFlag = 1 ↔ 50 < p)) ∧
    Filter.Tendsto (fun p : ℝ => ((calculateGaugeArc p).endX, (calculateGaugeArc p).endY))
      (nhds 100) (nhds (180, 100)) ∧
    Filter.Tendsto (fun p : ℝ => ((calculateGaugeArc p).endX, (calculateGaugeArc p).endY))
      (nhds 0) (nhds (20, 100)) := by
  have hc : Continuous (fun p : ℝ =>
      ((100 : ℝ) + 80 * Real.cos (Real.pi - p / 100 * Real.pi),
       (100 : ℝ) - 80 * Real.sin (Real.pi - p / 100 * Real.pi))) := by
    apply Continuous.prod_mk
    · exact continuous_const.add (continuous_const.mul (Real.continuous_cos.comp
        (continuous_const.sub ((continuous_id.div_const 100).mul continuous_const))))
    · exact continuous_const.sub (continuous_const.mul (Real.continuous_sin.comp
        (continuous_const.sub ((continuous_id.div_const 100).mul continuous_const))))
  refine ⟨?_, ?_, ?_⟩
  · intro p _ _
    show ((if p > 50 then 1 else 0 : ℕ) = 1 ↔ 50 < p)
    by_cases h : p > 50 <;> simp [h]
  · have hval : (((180 : ℝ), (100 : ℝ)) : ℝ × ℝ)
        = ((100 : ℝ) + 80 * Real.cos (Real.pi - 100 / 100 * Real.pi),
           (100 : ℝ) - 80 * Real.sin (Real.pi - 100 / 100 * Real.pi)) := by
      have h0 : Real.pi - 100 / 100 * Real.pi = 0 := by ring
      rw [h0, Real.cos_zero, Real.sin_zero]
      norm_num
    rw [hval]
    exact hc.tendsto 100
  · have hval : (((20 : ℝ), (100 : ℝ)) : ℝ × ℝ)
        = ((100 : ℝ) + 80 * Real.cos (Real.pi - 0 / 100 * Real.pi),
           (100 : ℝ) - 80 * Real.sin (Real.pi - 0 / 100 * Real.pi)) := by
      have h0 : Real.pi - 0 / 100 * Real.pi = Real.pi := by ring
      rw [h0, Real.cos_pi, Real.sin_pi]
      norm_num
    rw [hval]
    exact hc.tendsto 0

theorem calculateGaugeArc_flag_and_endpoint_limits_witness :
    (0 : ℝ) ≤ 60 ∧ (60 : ℝ) ≤ 100 ∧
    ((calculateGaugeArc 60).largeArcFlag = 1 ↔ (50 : ℝ) < 60) :=
  ⟨by norm_num, by norm_num,
    calculateGaugeArc_flag_and_endpoint_limits.1 60 (by norm_num) (by norm_num)⟩

/-- C8: on the concrete input 73.5, `calculateGaugeArc` produces a path
whose large-arc flag is 1, and `formatPercent` returns the pt-BR string
"73,5" with exactly one fraction digit. -/
theorem gauge_and_format_at_73_5 :
    (calculateGaugeArc 73.5).largeArcFlag = 1 ∧ formatPercent (73.5 : ℚ) = "73,5" := by
  constructor
  · show (if (73.5 : ℝ) > 50 then 1 else 0) = 1
    rw [if_pos (by norm_num)]
  · have h : (73.5 : ℚ) = mkRat 147 2 := by norm_num [Rat.mkRat_eq_div]
    rw [h]
    decide
